import Mathlib

/-!
Verification of the rebalance decision-and-execution engine of the
trading-system repository: a shallow embedding of
strategies/volatility_regime.py, strategies/base_strategy.py and
shared/alpaca_broker.py, together with theorems settling the
specification claims about scheduling, recovery mode, reconciliation
and order submission.

Modelling conventions:
- Monetary amounts, prices and weights are exact rationals (the Python
  code uses IEEE floats; none of the claims depends on rounding of
  binary floats, and all concrete inputs used below are exactly
  representable).
- A Python datetime is modelled as a calendar day number (days since
  1970-01-01 in the proleptic Gregorian calendar) plus a fractional
  time of day; datetime.date() equality is day-number equality and
  timedelta.days is the floor of the exact difference, as in CPython.
- The broker API is an oracle environment: each submit/liquidate call
  is recorded as an event, and the environment decides which calls
  raise.  Exceptions are Except.error, matching the try/except
  structure of the source.
- calculate_volatility ends with np.std(returns) * sqrt(252), an
  irrational scaling that cannot change availability of the result;
  the embedding therefore returns the filtered return series itself,
  with none as the unavailable sentinel.
-/

/-! ## Calendar arithmetic (CPython datetime / calendar semantics) -/

/-- Day number of a proleptic Gregorian date, days since 1970-01-01
(the civil-from-days algorithm used by every datetime library). -/
def daysFromCivil (y m d : ℤ) : ℤ :=
  let y2 := if m ≤ 2 then y - 1 else y
  let era := Int.ediv y2 400
  let yoe := y2 - era * 400
  let mp := if 2 < m then m - 3 else m + 9
  let doy := Int.ediv (153 * mp + 2) 5 + d - 1
  let doe := yoe * 365 + Int.ediv yoe 4 - Int.ediv yoe 100 + doy
  era * 146097 + doe - 719468

/-- Inverse of daysFromCivil: (year, month, day) of a day number. -/
def civilFromDays (z : ℤ) : ℤ × ℤ × ℤ :=
  let z2 := z + 719468
  let era := Int.ediv z2 146097
  let doe := z2 - era * 146097
  let yoe := Int.ediv (doe - Int.ediv doe 1460 + Int.ediv doe 36524 - Int.ediv doe 146096) 365
  let y := yoe + era * 400
  let doy := doe - (365 * yoe + Int.ediv yoe 4 - Int.ediv yoe 100)
  let mp := Int.ediv (5 * doy + 2) 153
  let d := doy - Int.ediv (153 * mp + 2) 5 + 1
  let m := if mp < 10 then mp + 3 else mp - 9
  (if m ≤ 2 then y + 1 else y, m, d)

def yearOf (z : ℤ) : ℤ := (civilFromDays z).1

def monthOf (z : ℤ) : ℤ := (civilFromDays z).2.1

def dayOf (z : ℤ) : ℤ := (civilFromDays z).2.2

/-- Python date.weekday(): Monday = 0 .. Sunday = 6. -/
def weekdayZ (z : ℤ) : ℤ := Int.emod (z + 3) 7

/-- Gregorian leap year, as in calendar.isleap. -/
def isLeap (y : ℤ) : Bool :=
  (Int.emod y 4 == 0 && Int.emod y 100 != 0) || Int.emod y 400 == 0

/-- calendar.monthrange(y, m)[1]: number of days in the month. -/
def daysInMonth (y m : ℤ) : ℤ :=
  if m = 2 then (if isLeap y then 29 else 28)
  else if m = 4 ∨ m = 6 ∨ m = 9 ∨ m = 11 then 30
  else 31

/-- Ordinal day within the calendar year (Jan 1 = 1). -/
def ordinalDay (z : ℤ) : ℤ := z - daysFromCivil (yearOf z) 1 1 + 1

/-- Weekday of Dec 31 of year y in the 52/53-week rule. -/
def isoP (y : ℤ) : ℤ :=
  Int.emod (y + Int.ediv y 4 - Int.ediv y 100 + Int.ediv y 400) 7

/-- Number of ISO weeks (52 or 53) in ISO year y. -/
def isoWeeksInYear (y : ℤ) : ℤ :=
  if isoP y = 4 ∨ isoP (y - 1) = 3 then 53 else 52

/-- The ISO (year, week) pair of a day number, as returned by Python
date.isocalendar() components 0 and 1. -/
def isoWeekPair (z : ℤ) : ℤ × ℤ :=
  let y := yearOf z
  let w := Int.ediv (ordinalDay z - (weekdayZ z + 1) + 10) 7
  if w < 1 then (y - 1, isoWeeksInYear (y - 1))
  else if isoWeeksInYear y < w then (y + 1, 1)
  else (y, w)

/-- date.isocalendar()[1], the ISO week number alone (what the weekly
scheduler in the source actually reads). -/
def isoWeekNum (z : ℤ) : ℤ := (isoWeekPair z).2

/-- A Python datetime: calendar day number plus time of day.  A well
formed value has 0 ≤ frac < 1; theorems that need the bound take it as
a hypothesis. -/
structure DateTime where
  days : ℤ
  frac : ℚ
deriving DecidableEq, Repr

/-- The instant as an exact rational number of days. -/
def DateTime.toQ (d : DateTime) : ℚ := (d.days : ℚ) + d.frac

/-- Python timedelta(...).days of the difference b - a: floor of the
exact difference in days. -/
def pyDaysBetween (a b : DateTime) : ℤ := ⌊b.toQ - a.toQ⌋

/-! ## Strategy constants (VolatilityRegimeStrategy.__init__) -/

def vol_lookback : ℕ := 20

def vol_low_threshold : ℚ := 15 / 100

def vol_high_threshold : ℚ := 25 / 100

def max_recovery_days : ℤ := 45

/-- The inline 0.50 extreme-spike threshold in check_recovery_mode. -/
def spike_threshold : ℚ := 1/2

/-- The inline 0.20 recovery-exit threshold in check_recovery_mode. -/
def recovery_exit_threshold : ℚ := 1/5

/-! ## Signal calculator (calculate_volatility) -/

/-- Consecutive (previous, current) closing-price pairs of the window. -/
def consecPairs : List ℚ → List (ℚ × ℚ)
  | p0 :: p1 :: rest => (p0, p1) :: consecPairs (p1 :: rest)
  | _ => []

/-- The daily return series: for each consecutive pair with nonzero
current price, (prev - cur) / cur; zero prices are skipped, exactly as
the loop in calculate_volatility does. -/
def dailyReturns : List ℚ → List ℚ
  | p0 :: p1 :: rest =>
      (if p1 ≠ 0 then [(p0 - p1) / p1] else []) ++ dailyReturns (p1 :: rest)
  | _ => []

/-- calculate_volatility, up to the final np.std * sqrt 252 scaling
(which cannot change availability): none is the unavailable sentinel,
some gives the return series whose annualized std is the volatility. -/
def calculate_volatility (prices : List ℚ) : Option (List ℚ) :=
  if prices.length < vol_lookback + 1 then none
  else if (dailyReturns prices).length < vol_lookback then none
  else some (dailyReturns prices)

/-! ## Strategy state and persisted record -/

/-- The mutable strategy fields relevant to the claims
(VolatilityRegimeStrategy instance attributes). -/
structure StratState where
  in_recovery_mode : Bool
  recovery_mode_start : Option DateTime
  last_rebalance_date : Option DateTime
  last_regime : Option String
  trade_count : ℕ
deriving DecidableEq, Repr

/-- Fresh state as set by __init__. -/
def initStrat : StratState :=
  { in_recovery_mode := false
    recovery_mode_start := none
    last_rebalance_date := none
    last_regime := none
    trade_count := 0 }

/-- The persisted record written by save_state and read back by
load_state (the dict literal at the end of calculate_signals). -/
structure SavedRecord where
  last_rebalance_date : Option DateTime
  last_regime : Option String
  trade_count : ℕ
  in_recovery_mode : Bool
  recovery_mode_start : Option DateTime
deriving DecidableEq, Repr

def mkRecord (st : StratState) : SavedRecord :=
  { last_rebalance_date := st.last_rebalance_date
    last_regime := st.last_regime
    trade_count := st.trade_count
    in_recovery_mode := st.in_recovery_mode
    recovery_mode_start := st.recovery_mode_start }

/-- State restore in VolatilityRegimeStrategy initialization: each
field is taken from the record when present, otherwise the __init__
default is kept (which coincides with the record holding none / 0 /
false). -/
def restoreState (r : SavedRecord) : StratState :=
  { in_recovery_mode := r.in_recovery_mode
    recovery_mode_start := r.recovery_mode_start
    last_rebalance_date := r.last_rebalance_date
    last_regime := r.last_regime
    trade_count := r.trade_count }

/-! ## Recovery-mode state machine (check_recovery_mode) -/

/-- Python `vol and vol > c` on an optional volatility: None and 0.0
are falsy. -/
def volAbove (vol : Option ℚ) (c : ℚ) : Bool :=
  match vol with
  | none => false
  | some v => v != 0 && c < v

/-- Python `vol and vol < c`. -/
def volBelow (vol : Option ℚ) (c : ℚ) : Bool :=
  match vol with
  | none => false
  | some v => v != 0 && v < c

/-- check_recovery_mode: enter recovery on an extreme volatility spike
(recording the entry instant), leave it when volatility normalizes or
after the timeout.  Note that leaving recovery does not clear
recovery_mode_start. -/
def check_recovery_mode (vol : Option ℚ) (now : DateTime) (st : StratState) : StratState :=
  let st1 :=
    if volAbove vol spike_threshold && !st.in_recovery_mode then
      { st with in_recovery_mode := true, recovery_mode_start := some now }
    else st
  match st1.recovery_mode_start with
  | some start =>
      if st1.in_recovery_mode then
        let days_in_recovery := pyDaysBetween start now
        if volBelow vol recovery_exit_threshold ||
            decide (max_recovery_days < days_in_recovery) then
          { st1 with in_recovery_mode := false }
        else st1
      else st1
  | none => st1

/-- get_current_regime as a pure function of the (already updated)
volatility and the recovery flag. -/
def get_current_regime (vol : Option ℚ) (inRecovery : Bool) : String :=
  match vol with
  | none => "UNKNOWN"
  | some v =>
      if inRecovery then
        if v < vol_low_threshold * (3/2) then "RECOVERY_LEVERAGE" else "RECOVERY_NEUTRAL"
      else if v < vol_low_threshold then "LOW_VOL_LEVERAGE"
      else if vol_high_threshold < v then "HIGH_VOL_DEFENSIVE"
      else "MEDIUM_VOL_NEUTRAL"

/-! ## Rebalance scheduler (should_rebalance_today and helpers) -/

/-- last_rebalance_date.date() == today.date(). -/
def sameDate (last : Option DateTime) (today : DateTime) : Bool :=
  match last with
  | some l => l.days == today.days
  | none => false

/-- Daily: rebalance when the regime changed, at most once per day. -/
def check_daily_rebalance (today : DateTime) (st : StratState) (current_regime : String) : Bool :=
  if sameDate st.last_rebalance_date today then false
  else
    match st.last_regime with
    | some lr => if current_regime ≠ lr then true else false
    | none => true

/-- Weekly: every Friday, unless the stored last rebalance has the
same isocalendar week number and the same calendar year attribute. -/
def check_weekly_rebalance (today : DateTime) (last : Option DateTime) : Bool :=
  if weekdayZ today.days != 4 then false
  else
    match last with
    | none => true
    | some l =>
        let same_week :=
          (isoWeekNum today.days == isoWeekNum l.days) &&
          (yearOf today.days == yearOf l.days)
        if same_week then false else true

/-- Monthly: in the last 3 days of the month, unless already done in
the same (year, month). -/
def check_monthly_rebalance (today : DateTime) (last : Option DateTime) : Bool :=
  let y := yearOf today.days
  let m := monthOf today.days
  let last_day := daysInMonth y m
  if dayOf today.days < last_day - 2 then false
  else
    match last with
    | none => true
    | some l =>
        if yearOf l.days == y && monthOf l.days == m then false else true

/-- Adaptive: regime change (at most once per day), otherwise a Friday
safety check when at least 7 days have passed since the last rebalance. -/
def check_adaptive_rebalance (today : DateTime) (st : StratState) (current_regime : String) : Bool :=
  let regime_changed :=
    match st.last_regime with
    | some lr => current_regime != lr
    | none => false
  if regime_changed then
    if sameDate st.last_rebalance_date today then false else true
  else if weekdayZ today.days == 4 then
    match st.last_rebalance_date with
    | some l => decide (7 ≤ pyDaysBetween l today)
    | none => true
  else false

inductive Freq
  | daily
  | weekly
  | monthly
  | adaptive
deriving DecidableEq, Repr

/-- should_rebalance_today, dispatching on the configured frequency;
the volatility parameter abstracts the market-data refresh feeding
get_current_regime. -/
def should_rebalance_today (freq : Freq) (today : DateTime) (st : StratState)
    (vol : Option ℚ) : Bool :=
  match freq with
  | .daily => check_daily_rebalance today st (get_current_regime vol st.in_recovery_mode)
  | .weekly => check_weekly_rebalance today st.last_rebalance_date
  | .monthly => check_monthly_rebalance today st.last_rebalance_date
  | .adaptive => check_adaptive_rebalance today st (get_current_regime vol st.in_recovery_mode)

/-! ## Signal calculation (calculate_signals) -/

/-- calculate_signals.  With volatility unavailable the source reaches
the decision log line, whose f-string formats current_volatility
(None) with the .1% spec and raises TypeError before any state update:
that path is Except.error.  Otherwise returns (allocation, regime
label, updated state); the state update (trade_count increment,
last_rebalance_date, last_regime) happens before the save and before
any trading. -/
def calculate_signals (vol : Option ℚ) (now : DateTime) (st : StratState) :
    Except Unit (List (String × ℚ) × String × StratState) :=
  match vol with
  | none => .error ()
  | some v =>
      let stR := check_recovery_mode (some v) now st
      let ar : List (String × ℚ) × String :=
        if stR.in_recovery_mode then
          if v < vol_low_threshold * (3/2) then ([("UPRO", 1)], "RECOVERY_LEVERAGE")
          else ([("SPY", 1)], "RECOVERY_NEUTRAL")
        else if v < vol_low_threshold then ([("UPRO", 1)], "LOW_VOL_LEVERAGE")
        else if vol_high_threshold < v then ([("SH", 1)], "HIGH_VOL_DEFENSIVE")
        else ([("SPY", 1)], "MEDIUM_VOL_NEUTRAL")
      let st2 : StratState :=
        { stR with
          trade_count := st.trade_count + 1
          last_rebalance_date := some now
          last_regime := some ar.2 }
      .ok (ar.1, ar.2, st2)

/-! ## Trade reconciliation (execute_trades) -/

/-- dict.get(symbol, 0.0) on an association list. -/
def lookupW (m : List (String × ℚ)) (s : String) : ℚ :=
  match m.find? (fun p => p.1 == s) with
  | some p => p.2
  | none => 0

def totalW (tgt : List (String × ℚ)) : ℚ := (tgt.map Prod.snd).sum

/-- Renormalize the target so the weights sum to 1 when the raw sum is
positive, else keep it unchanged. -/
def normalizeTarget (tgt : List (String × ℚ)) : List (String × ℚ) :=
  if 0 < totalW tgt then tgt.map (fun p => (p.1, p.2 / totalW tgt)) else tgt

/-- Symbols held now whose (renormalized) target weight is 0. -/
def to_liquidate (cur tgt : List (String × ℚ)) : List String :=
  (cur.map Prod.fst).filter (fun s => lookupW tgt s == 0)

/-- Target entries with positive weight differing from the current
weight by more than the 0.001 tolerance. -/
def to_adjust (cur tgt : List (String × ℚ)) : List (String × ℚ) :=
  tgt.filter (fun p => (0 < p.2 : Bool) && (1/1000 < |lookupW cur p.1 - p.2| : Bool))

/-! ## Broker model (alpaca_broker.py) as an event trace -/

/-- Oracle environment: account data plus which broker calls raise. -/
structure Env where
  equity : ℚ
  price : String → Option ℚ
  notionalFails : String → Bool
  quantityFails : String → Bool
  liquidateFails : String → Bool
  hasPosition : String → Bool
  useFractional : Bool
  saveFails : Bool

/-- Observable broker/state-store actions, in submission order. -/
inductive Ev
  | save (rec : SavedRecord) (ok : Bool)
  | liquidate (symbol : String)
  | notional (symbol : String) (amount : ℚ)
  | quantity (symbol : String) (qty : ℤ)
deriving DecidableEq, Repr

def isSaveEv : Ev → Bool
  | .save _ _ => true
  | _ => false

def isTradeEv : Ev → Bool
  | .liquidate _ => true
  | .notional _ _ => true
  | .quantity _ _ => true
  | _ => false

def evSymbol : Ev → String
  | .save _ _ => ""
  | .liquidate s => s
  | .notional s _ => s
  | .quantity s _ => s

def countQty (evs : List Ev) : ℕ := (evs.filter (fun e => match e with | .quantity _ _ => true | _ => false)).length

/-- Python int() truncation toward zero. -/
def pytrunc (x : ℚ) : ℤ := if 0 ≤ x then ⌊x⌋ else ⌈x⌉

/-- Round half to even at integer precision (Python round on an
exactly representable value). -/
def roundHalfEven (x : ℚ) : ℤ :=
  let f := ⌊x⌋
  let r := x - f
  if r < 1/2 then f
  else if 1/2 < r then f + 1
  else if Int.emod f 2 = 0 then f else f + 1

/-- round(x, 2) on an exactly representable amount. -/
def round2 (x : ℚ) : ℚ := (roundHalfEven (x * 100) : ℚ) / 100

/-- _place_quantity_order: buy target_value / price whole shares; a
broker rejection is re-raised; qty = 0 only logs a warning. -/
def place_quantity_order (env : Env) (s : String) (target_value price : ℚ) :
    List Ev × Except Unit Unit :=
  let qty := pytrunc (target_value / price)
  if 0 < qty then
    ([.quantity s qty], if env.quantityFails s then .error () else .ok ())
  else ([], .ok ())

/-- _place_notional_order: submit a dollar-amount order; on rejection
fall back (once) to a whole-share order, but only when the re-fetched
price is truthy; the fallback itself may re-raise. -/
def place_notional_order (env : Env) (s : String) (target_value : ℚ) :
    List Ev × Except Unit Unit :=
  if target_value < 1 then ([], .ok ())
  else if env.notionalFails s then
    let fb :=
      match env.price s with
      | some p => if p ≠ 0 then place_quantity_order env s target_value p else ([], .ok ())
      | none => ([], .ok ())
    (.notional s (round2 target_value) :: fb.1, fb.2)
  else ([.notional s (round2 target_value)], .ok ())

/-- set_holdings: size the order as equity × target_weight and place
it as a notional (fractional) or quantity order; skip on an invalid
price. -/
def set_holdings (env : Env) (s : String) (target_weight : ℚ) :
    List Ev × Except Unit Unit :=
  let target_value := env.equity * target_weight
  match env.price s with
  | none => ([], .ok ())
  | some p =>
      if p ≤ 0 then ([], .ok ())
      else if env.useFractional then place_notional_order env s target_value
      else place_quantity_order env s target_value p

/-- liquidate_position: no-op without a position; a broker error is
re-raised. -/
def liquidate_position (env : Env) (s : String) : List Ev × Except Unit Unit :=
  if env.hasPosition s then
    ([.liquidate s], if env.liquidateFails s then .error () else .ok ())
  else ([], .ok ())

/-- The liquidation loop of execute_trades; an exception aborts it. -/
def runLiquidate (env : Env) : List String → List Ev × Except Unit Unit
  | [] => ([], .ok ())
  | s :: rest =>
      let r := liquidate_position env s
      match r.2 with
      | .error u => (r.1, .error u)
      | .ok _ =>
          let r2 := runLiquidate env rest
          (r.1 ++ r2.1, r2.2)

/-- The adjustment loop of execute_trades; an exception aborts it. -/
def runAdjust (env : Env) : List (String × ℚ) → List Ev × Except Unit Unit
  | [] => ([], .ok ())
  | (s, w) :: rest =>
      let r := set_holdings env s w
      match r.2 with
      | .error u => (r.1, .error u)
      | .ok _ =>
          let r2 := runAdjust env rest
          (r.1 ++ r2.1, r2.2)

/-- execute_trades: renormalize the target, liquidate first, then
adjust; exceptions propagate to the caller. -/
def execute_trades (env : Env) (cur tgt : List (String × ℚ)) :
    List Ev × Except Unit Unit :=
  let tgt2 := normalizeTarget tgt
  let liq := to_liquidate cur tgt2
  let adj := to_adjust cur tgt2
  let r1 := runLiquidate env liq
  match r1.2 with
  | .error u => (r1.1, .error u)
  | .ok _ =>
      let r2 := runAdjust env adj
      (r1.1 ++ r2.1, r2.2)

/-- BaseStrategy.execute for one cycle: scheduling gate, then
calculate_signals (state update and save attempt), then
execute_trades; any exception is caught at the top and the cycle
reports false, keeping the already-applied state mutations. -/
def execute (env : Env) (freq : Freq) (isInit : Bool) (vol : Option ℚ)
    (now : DateTime) (cur : List (String × ℚ)) (st : StratState) :
    List Ev × StratState × Bool :=
  if !isInit then ([], st, false)
  else if !should_rebalance_today freq now st vol then ([], st, false)
  else
    match calculate_signals vol now st with
    | .error _ => ([], st, false)
    | .ok (alloc, _, st2) =>
        let saveEv := Ev.save (mkRecord st2) (!env.saveFails)
        if alloc.isEmpty then ([saveEv], st2, false)
        else
          let r := execute_trades env cur alloc
          match r.2 with
          | .ok _ => (saveEv :: r.1, st2, true)
          | .error _ => (saveEv :: r.1, st2, false)

/-! ## Helper lemmas -/

lemma sum_snd_map_div (l : List (String × ℚ)) (t : ℚ) :
    ((l.map (fun p => (p.1, p.2 / t))).map Prod.snd).sum = (l.map Prod.snd).sum / t := by
  induction l with
  | nil => simp
  | cons hd tl ih => simp only [List.map_cons, List.sum_cons, ih, add_div]

lemma totalW_normalize (tgt : List (String × ℚ)) (h : 0 < totalW tgt) :
    totalW (normalizeTarget tgt) = 1 := by
  simp only [normalizeTarget, totalW] at h ⊢
  rw [if_pos h, sum_snd_map_div]
  exact div_self (ne_of_gt h)

lemma dailyReturns_eq_filter (prices : List ℚ) :
    dailyReturns prices =
      ((consecPairs prices).filter (fun pr => pr.2 ≠ 0)).map
        (fun pr => (pr.1 - pr.2) / pr.2) := by
  induction prices with
  | nil => rfl
  | cons p0 tl ih =>
    cases tl with
    | nil => rfl
    | cons p1 rest =>
      by_cases h : p1 = 0
      · subst h
        simp [dailyReturns, consecPairs, ih]
      · simp [dailyReturns, consecPairs, h, ih]

/-! ## Claim theorems -/

/-- C2: for every reconciliation with current weights C and target T
(renormalized to sum 1 when its raw sum is positive), to_liquidate is
exactly the symbols of C whose target weight is 0, and to_adjust is
exactly the positive-weight target entries differing from the current
weight by more than 0.001; the two concrete scenarios of the spec
evaluate as stated. -/
theorem C2_reconciliation_sets :
    (∀ (cur tgt : List (String × ℚ)) (s : String),
        s ∈ to_liquidate cur (normalizeTarget tgt) ↔
          s ∈ cur.map Prod.fst ∧ lookupW (normalizeTarget tgt) s = 0) ∧
    (∀ (cur tgt : List (String × ℚ)) (s : String) (w : ℚ),
        (s, w) ∈ to_adjust cur (normalizeTarget tgt) ↔
          (s, w) ∈ normalizeTarget tgt ∧ 0 < w ∧ 1/1000 < |lookupW cur s - w|) ∧
    (∀ tgt : List (String × ℚ), 0 < totalW tgt → totalW (normalizeTarget tgt) = 1) ∧
    (to_liquidate [("A", 3/5), ("B", 2/5)] (normalizeTarget [("A", 1)]) = ["B"] ∧
     to_adjust [("A", 3/5), ("B", 2/5)] (normalizeTarget [("A", 1)]) = [("A", 1)]) ∧
    (to_liquidate [] (normalizeTarget [("SPY", 1)]) = [] ∧
     to_adjust [] (normalizeTarget [("SPY", 1)]) = [("SPY", 1)]) := by
  refine ⟨?_, ?_, totalW_normalize, ?_, ?_⟩
  · intro cur tgt s
    simp [to_liquidate, List.mem_filter]
  · intro cur tgt s w
    simp [to_adjust, List.mem_filter, and_assoc]
  · exact ⟨by with_unfolding_all decide, by with_unfolding_all decide⟩
  · exact ⟨by with_unfolding_all decide, by with_unfolding_all decide⟩

/-- C2 witness: the renormalization conjunct applied to a concrete
target whose raw sum is 2. -/
theorem C2_witness : totalW (normalizeTarget [("A", 2)]) = 1 :=
  C2_reconciliation_sets.2.2.1 [("A", 2)] (by with_unfolding_all decide)

/-- C9: calculate_volatility is total with the unavailable sentinel:
fewer than lookback+1 prices give none; the return series is exactly
the filtered one over consecutive pairs with nonzero current price (so
no division by zero ever occurs); and fewer than lookback surviving
returns also give none, while an available result carries at least
lookback returns. -/
theorem C9_volatility_totality : ∀ prices : List ℚ,
    (prices.length < vol_lookback + 1 → calculate_volatility prices = none) ∧
    (dailyReturns prices =
       ((consecPairs prices).filter (fun pr => pr.2 ≠ 0)).map
         (fun pr => (pr.1 - pr.2) / pr.2)) ∧
    ((dailyReturns prices).length < vol_lookback → calculate_volatility prices = none) ∧
    (∀ r, calculate_volatility prices = some r →
        r = dailyReturns prices ∧ vol_lookback ≤ r.length) := by
  intro prices
  refine ⟨?_, dailyReturns_eq_filter prices, ?_, ?_⟩
  · intro h
    simp [calculate_volatility, h]
  · intro h
    unfold calculate_volatility
    split
    · rfl
    · simp [h]
  · intro r hr
    unfold calculate_volatility at hr
    by_cases h1 : prices.length < vol_lookback + 1
    · rw [if_pos h1] at hr
      exact absurd hr (by simp)
    · rw [if_neg h1] at hr
      by_cases h2 : (dailyReturns prices).length < vol_lookback
      · rw [if_pos h2] at hr
        exact absurd hr (by simp)
      · rw [if_neg h2] at hr
        injection hr with h
        subst h
        exact ⟨rfl, by omega⟩

/-- C9 witness: a 3-price window is below the 21-point requirement and
yields the sentinel. -/
theorem C9_witness : calculate_volatility [1, 2, 3] = none :=
  (C9_volatility_totality [1, 2, 3]).1 (by decide)

/-! ## Concrete fixtures used by witnesses and counterexamples -/

/-- Broker oracle in which every call succeeds. -/
def envAllOk : Env :=
  { equity := 1000, price := fun _ => some 100, notionalFails := fun _ => false,
    quantityFails := fun _ => false, liquidateFails := fun _ => false,
    hasPosition := fun _ => true, useFractional := true, saveFails := false }

/-- Broker oracle in which both the notional and the quantity order
for symbol A are rejected, everything else succeeds. -/
def envOrderFailA : Env :=
  { equity := 1000, price := fun _ => some 100, notionalFails := fun s => s == "A",
    quantityFails := fun s => s == "A", liquidateFails := fun _ => false,
    hasPosition := fun _ => false, useFractional := true, saveFails := false }

/-- Midnight of Friday 2021-01-01. -/
def fri20210101 : DateTime := ⟨daysFromCivil 2021 1 1, 0⟩

/-- Midnight of Monday 2020-12-28 (same ISO week as 2021-01-01). -/
def mon20201228 : DateTime := ⟨daysFromCivil 2020 12 28, 0⟩

/-- Midnight of Friday 2021-01-29 (a month-end window day). -/
def fri20210129 : DateTime := ⟨daysFromCivil 2021 1 29, 0⟩

/-- C6 (amended): the weekly predicate is true exactly on a Friday
whose stored last rebalance does not share both the isocalendar week
number and the calendar year attribute; with no prior rebalance any
Friday yields true.  (The code pairs the ISO week number with the
calendar year, not with the ISO year of the pair.) -/
lemma check_weekly_some_iff (today l : DateTime) :
    check_weekly_rebalance today (some l) = true ↔
      weekdayZ today.days = 4 ∧
      ¬(isoWeekNum today.days = isoWeekNum l.days ∧
        yearOf today.days = yearOf l.days) := by
  unfold check_weekly_rebalance
  by_cases hw : weekdayZ today.days = 4
  · by_cases h1 : isoWeekNum today.days = isoWeekNum l.days <;>
      by_cases h2 : yearOf today.days = yearOf l.days <;>
        simp [hw, h1, h2]
  · simp [hw]

theorem C6_weekly_gate : ∀ (today : DateTime) (last : Option DateTime),
    (check_weekly_rebalance today last = true ↔
      weekdayZ today.days = 4 ∧
      ∀ l, last = some l →
        ¬(isoWeekNum today.days = isoWeekNum l.days ∧
          yearOf today.days = yearOf l.days)) ∧
    (weekdayZ today.days = 4 → check_weekly_rebalance today none = true) := by
  intro today last
  refine ⟨?_, fun hw => by simp [check_weekly_rebalance, hw]⟩
  cases last with
  | none =>
      by_cases hw : weekdayZ today.days = 4 <;> simp [check_weekly_rebalance, hw]
  | some l =>
      rw [check_weekly_some_iff]
      constructor
      · rintro ⟨hw, hne⟩
        exact ⟨hw, fun l2 hl2 => by injection hl2 with h; subst h; exact hne⟩
      · rintro ⟨hw, hall⟩
        exact ⟨hw, hall l rfl⟩

/-- C6 counterexample: Friday 2021-01-01 and Monday 2020-12-28 lie in
the same ISO (year, week) pair (2020, 53), yet the weekly predicate
returns true, because the code compares the calendar years 2021 and
2020 instead of the ISO years. -/
theorem C6_counterexample :
    check_weekly_rebalance fri20210101 (some mon20201228) = true ∧
    isoWeekPair fri20210101.days = isoWeekPair mon20201228.days ∧
    isoWeekPair fri20210101.days = (2020, 53) ∧
    weekdayZ fri20210101.days = 4 := by
  refine ⟨by decide, by decide, by decide, by decide⟩

/-- C6 witness: the no-prior-rebalance conjunct at a concrete Friday. -/
theorem C6_witness : check_weekly_rebalance fri20210101 none = true :=
  (C6_weekly_gate fri20210101 none).2 (by decide)

/-- C8: the scheduling predicates are pure functions of (date, state,
regime), hence calling twice with unchanged inputs gives the same
answer; and after a true answer followed by the decision state update
(last_rebalance_date := the update instant, last_regime := the decided
regime), every further call in the same period returns false — period
meaning the same calendar day for daily and adaptive, the same
isocalendar week number and calendar year for weekly (the dedup key
the code compares, cf. C6), and the same calendar month for monthly;
in particular a second monthly call on the same calendar day after the
update returns false. -/
theorem C8_scheduler_idempotent :
    (∀ (freq : Freq) (today : DateTime) (st : StratState) (vol : Option ℚ),
        should_rebalance_today freq today st vol =
          should_rebalance_today freq today st vol) ∧
    (∀ (today2 upd : DateTime) (r cur : String) (st : StratState),
        today2.days = upd.days →
        check_daily_rebalance today2
          { st with last_rebalance_date := some upd, last_regime := some r } cur = false) ∧
    (∀ (today2 upd : DateTime),
        isoWeekNum today2.days = isoWeekNum upd.days →
        yearOf today2.days = yearOf upd.days →
        check_weekly_rebalance today2 (some upd) = false) ∧
    (∀ (today2 upd : DateTime),
        yearOf today2.days = yearOf upd.days →
        monthOf today2.days = monthOf upd.days →
        check_monthly_rebalance today2 (some upd) = false) ∧
    (∀ (today2 upd : DateTime) (r cur : String) (st : StratState),
        today2.days = upd.days →
        0 ≤ today2.frac → today2.frac < 1 → 0 ≤ upd.frac → upd.frac < 1 →
        check_adaptive_rebalance today2
          { st with last_rebalance_date := some upd, last_regime := some r } cur = false) ∧
    (∀ (today2 upd : DateTime),
        today2.days = upd.days →
        check_monthly_rebalance today2 (some upd) = false) := by
  have hmonthly : ∀ (today2 upd : DateTime),
      yearOf today2.days = yearOf upd.days →
      monthOf today2.days = monthOf upd.days →
      check_monthly_rebalance today2 (some upd) = false := by
    intro today2 upd h1 h2
    unfold check_monthly_rebalance
    by_cases hd : dayOf today2.days <
        daysInMonth (yearOf today2.days) (monthOf today2.days) - 2 <;>
      simp [hd, h1.symm, h2.symm]
  refine ⟨fun _ _ _ _ => rfl, ?_, ?_, hmonthly, ?_, ?_⟩
  · intro today2 upd r cur st h
    simp [check_daily_rebalance, sameDate, h]
  · intro today2 upd h1 h2
    unfold check_weekly_rebalance
    by_cases hw : weekdayZ today2.days = 4 <;> simp [hw, h1, h2]
  · intro today2 upd r cur st h hf1 hf2 hf3 hf4
    have hfloor : pyDaysBetween upd today2 < 7 := by
      unfold pyDaysBetween DateTime.toQ
      rw [h]
      have he : (upd.days : ℚ) + today2.frac - ((upd.days : ℚ) + upd.frac) =
          today2.frac - upd.frac := by ring
      rw [he]
      have hlt : today2.frac - upd.frac < (7 : ℚ) := by linarith
      exact_mod_cast Int.floor_lt.2 (by exact_mod_cast hlt)
    unfold check_adaptive_rebalance
    by_cases hc : cur = r
    · subst hc
      simp only [bne_self_eq_false]
      by_cases hw : weekdayZ today2.days = 4 <;>
        simp [hw, sameDate, h, not_le.2 hfloor]
    · have hb : (cur != r) = true := by simpa using hc
      simp [hb, sameDate, h]
  · intro today2 upd h
    exact hmonthly today2 upd (by rw [h]) (by rw [h])

/-- C8 witness: the monthly instance at a concrete month-end day,
calling again on the same calendar day after the state update. -/
theorem C8_witness : check_monthly_rebalance fri20210129 (some fri20210129) = false :=
  C8_scheduler_idempotent.2.2.2.2.2 fri20210129 fri20210129 rfl

/-- A state in recovery mode since day 0, with nothing else set. -/
def stRecov0 : StratState :=
  { in_recovery_mode := true, recovery_mode_start := some ⟨0, 0⟩,
    last_rebalance_date := none, last_regime := none, trade_count := 0 }

lemma volAbove_half_not_below (vol : Option ℚ)
    (h : volAbove vol spike_threshold = true) :
    volBelow vol recovery_exit_threshold = false := by
  cases vol with
  | none => rfl
  | some v =>
      simp only [volAbove, spike_threshold, Bool.and_eq_true, bne_iff_ne,
        decide_eq_true_eq] at h
      have hnlt : ¬(v < recovery_exit_threshold) := by
        simp only [recovery_exit_threshold]
        intro hcon
        have h15 : (1 : ℚ)/5 ≤ 1/2 := by norm_num
        linarith [h.2]
      simp [volBelow, hnlt]

lemma pyDaysBetween_self (now : DateTime) : pyDaysBetween now now = 0 := by
  simp [pyDaysBetween]

/-- C4 (amended): recovery activates exactly when the (available and
nonzero) volatility exceeds 0.50 while not already in recovery; with
the entry timestamp recorded, it deactivates exactly when the
volatility is available, nonzero and below 0.20, or strictly more than
45 whole days have elapsed since the entry timestamp; and the flag is
never simultaneously true and false. -/
theorem C4_recovery_transitions :
    ∀ (vol : Option ℚ) (now : DateTime) (st : StratState),
    (st.in_recovery_mode = false →
        ((check_recovery_mode vol now st).in_recovery_mode = true ↔
          volAbove vol spike_threshold = true)) ∧
    (∀ t0, st.in_recovery_mode = true → st.recovery_mode_start = some t0 →
        ((check_recovery_mode vol now st).in_recovery_mode = false ↔
          (volBelow vol recovery_exit_threshold = true ∨
            max_recovery_days < pyDaysBetween t0 now))) ∧
    ¬((check_recovery_mode vol now st).in_recovery_mode = true ∧
      (check_recovery_mode vol now st).in_recovery_mode = false) := by
  intro vol now st
  refine ⟨?_, ?_, ?_⟩
  · intro h0
    unfold check_recovery_mode
    cases hv : volAbove vol spike_threshold with
    | true =>
        have hnb := volAbove_half_not_below vol hv
        simp [hv, h0, hnb, pyDaysBetween_self, max_recovery_days]
    | false =>
        cases hs : st.recovery_mode_start <;> simp [hv, h0, hs]
  · intro t0 h1 hs
    unfold check_recovery_mode
    simp only [h1, Bool.not_true, Bool.and_false, Bool.false_eq_true, if_false, hs]
    cases hvb : volBelow vol recovery_exit_threshold with
    | true => simp [h1, hvb]
    | false =>
        by_cases hd : max_recovery_days < pyDaysBetween t0 now <;>
          simp [h1, hvb, hd]
  · rintro ⟨ha, hb⟩
    rw [ha] at hb
    cases hb

/-- C4 counterexample: in recovery since day 0, at day 45 with
volatility 0.30 exactly 45 days have elapsed (at least 45, as the
claim requires for deactivation) and yet the code stays in recovery,
because it compares with a strict greater-than against 45. -/
theorem C4_counterexample :
    (check_recovery_mode (some (3/10)) ⟨45, 0⟩ stRecov0).in_recovery_mode = true ∧
    pyDaysBetween ⟨0, 0⟩ ⟨45, 0⟩ = 45 ∧
    ¬((3 : ℚ)/10 < 1/5) := by
  refine ⟨by with_unfolding_all decide, by with_unfolding_all decide, by norm_num⟩

/-- C4 witness: the deactivation characterization applied in recovery
at day 10 with volatility 0.10 (below 0.20). -/
theorem C4_witness :
    (check_recovery_mode (some (1/10)) ⟨10, 0⟩ stRecov0).in_recovery_mode = false :=
  ((C4_recovery_transitions (some (1/10)) ⟨10, 0⟩ stRecov0).2.1 ⟨0, 0⟩ rfl rfl).mpr
    (Or.inl (by with_unfolding_all decide))

/-- C5 (amended): the one-directional invariant holds after every
operation: whenever in_recovery_mode is true, recovery_mode_start is
set — preserved by initialization, by restoring any record satisfying
it, and by every check_recovery_mode transition.  The claimed iff
fails in the other direction because deactivation does not clear
recovery_mode_start (see the counterexample). -/
theorem C5_start_set_when_active :
    (initStrat.in_recovery_mode = true → initStrat.recovery_mode_start.isSome = true) ∧
    (∀ r : SavedRecord,
        (r.in_recovery_mode = true → r.recovery_mode_start.isSome = true) →
        (restoreState r).in_recovery_mode = true →
        (restoreState r).recovery_mode_start.isSome = true) ∧
    (∀ (vol : Option ℚ) (now : DateTime) (st : StratState),
        (st.in_recovery_mode = true → st.recovery_mode_start.isSome = true) →
        (check_recovery_mode vol now st).in_recovery_mode = true →
        (check_recovery_mode vol now st).recovery_mode_start.isSome = true) := by
  refine ⟨fun h => absurd h (by decide), fun r hr => hr, ?_⟩
  intro vol now st hinv hact
  unfold check_recovery_mode at hact ⊢
  by_cases hc : (volAbove vol spike_threshold && !st.in_recovery_mode) = true
  · simp only [if_pos hc] at hact ⊢
    split
    · split <;> rfl
    · rfl
  · simp only [if_neg hc] at hact ⊢
    cases hs : st.recovery_mode_start with
    | some t0 =>
        cases hr : st.in_recovery_mode with
        | true =>
            by_cases hx : (volBelow vol recovery_exit_threshold ||
                decide (max_recovery_days < pyDaysBetween t0 now)) = true
            · simp [hr, hx]
            · simp [hr, hx, hs]
        | false => simp [hr, hs]
    | none =>
        rw [hs] at hact
        exact absurd (hinv hact) (by simp [hs])

/-- C5 counterexample: leaving recovery (volatility 0.10 at day 10)
resets in_recovery_mode to false but leaves recovery_mode_start set,
refuting the if-and-only-if form of the invariant. -/
theorem C5_counterexample :
    (check_recovery_mode (some (1/10)) ⟨10, 0⟩ stRecov0).in_recovery_mode = false ∧
    (check_recovery_mode (some (1/10)) ⟨10, 0⟩ stRecov0).recovery_mode_start = some ⟨0, 0⟩ := by
  exact ⟨by with_unfolding_all decide, by with_unfolding_all decide⟩

/-- C5 witness: the transition conjunct applied to a state that stays
in recovery (no volatility reading, day 10 of 45). -/
theorem C5_witness :
    (check_recovery_mode none ⟨10, 0⟩ stRecov0).recovery_mode_start.isSome = true :=
  C5_start_set_when_active.2.2 none ⟨10, 0⟩ stRecov0 (fun _ => rfl)
    (by with_unfolding_all decide)

lemma countQty_quantity (env : Env) (s : String) (tv p : ℚ) :
    countQty (place_quantity_order env s tv p).1 ≤ 1 := by
  unfold place_quantity_order
  by_cases hq : 0 < pytrunc (tv / p) <;>
    by_cases hf : env.quantityFails s = true <;>
      simp [hq, hf, countQty, List.filter]

/-- C3 (amended): an adjustment order for a symbol in to_adjust is
sized as the full target_weight × equity notional; the currently held
weight does not enter the sizing at all (set_holdings never sees it). -/
theorem C3_adjustment_sized_full_target :
    ∀ (env : Env) (s : String) (w p : ℚ),
      env.price s = some p → 0 < p → env.useFractional = true →
      env.notionalFails s = false → 1 ≤ env.equity * w →
      (set_holdings env s w).1 = [Ev.notional s (round2 (env.equity * w))] ∧
      (set_holdings env s w).2 = Except.ok () := by
  intro env s w p hp hp0 hf hnf hval
  unfold set_holdings place_notional_order
  rw [hp]
  have h1 : ¬(p ≤ 0) := not_le.2 hp0
  have h2 : ¬(env.equity * w < 1) := not_lt.2 hval
  simp [h1, h2, hf, hnf]

set_option maxRecDepth 2000 in
/-- C3 counterexample: with current = {A: 0.6, B: 0.4}, target =
{A: 1.0} and equity 1000, the submitted notional for A is 1000 (the
full target value), not the 400 the remaining-deficit sizing of the
claim would give. -/
theorem C3_counterexample :
    (execute_trades envAllOk [("A", 3/5), ("B", 2/5)] [("A", 1)]).1
      = [Ev.liquidate "B", Ev.notional "A" 1000] ∧
    (1 - 3/5 : ℚ) * 1000 = 400 ∧ ((1000 : ℚ) ≠ 400) := by
  refine ⟨by with_unfolding_all decide, by norm_num, by norm_num⟩

/-- C3 witness: the sizing theorem applied to a fully targeted symbol
at equity 1000. -/
theorem C3_witness :
    (set_holdings envAllOk "A" 1).1 = [Ev.notional "A" (round2 (envAllOk.equity * 1))] ∧
    (set_holdings envAllOk "A" 1).2 = Except.ok () :=
  C3_adjustment_sized_full_target envAllOk "A" 1 100 rfl (by norm_num) rfl rfl
    (by with_unfolding_all decide)

/-- C7 (amended): a failing notional order falls back at most once to
a whole-share quantity order — exactly once when the re-fetched price
is available and nonzero and the computed share count is positive —
but a quantity-order failure propagates out of set_holdings and aborts
the remaining symbols of the reconciliation batch (no event of theirs
is emitted); it is caught only by the per-cycle handler. -/
theorem C7_fallback_once_batch_aborts :
    (∀ (env : Env) (s : String) (w : ℚ),
        countQty (set_holdings env s w).1 ≤ 1) ∧
    (∀ (env : Env) (s : String) (w p : ℚ),
        env.price s = some p → 0 < p → env.useFractional = true →
        env.notionalFails s = true → 1 ≤ env.equity * w →
        0 < pytrunc (env.equity * w / p) →
        countQty (set_holdings env s w).1 = 1) ∧
    (∀ (env : Env) (s : String) (w : ℚ) (rest : List (String × ℚ)),
        (set_holdings env s w).2 = Except.error () →
        (runAdjust env ((s, w) :: rest)).1 = (set_holdings env s w).1) := by
  refine ⟨?_, ?_, ?_⟩
  · intro env s w
    unfold set_holdings
    cases hp : env.price s with
    | none => simp [countQty]
    | some p =>
        by_cases h1 : p ≤ 0
        · simp [h1, countQty]
        · cases hf : env.useFractional with
          | false => simp [h1, countQty_quantity]
          | true =>
              simp only [h1, if_false, if_true]
              unfold place_notional_order
              by_cases h2 : env.equity * w < 1
              · simp [h2, countQty]
              · cases hnf : env.notionalFails s with
                | false => simp [h2, hnf, countQty]
                | true =>
                    simp only [h2, hnf, if_false, if_true]
                    cases hp2 : env.price s with
                    | none => simp [countQty]
                    | some q =>
                        by_cases hq : q ≠ 0
                        · simpa [hq, countQty] using countQty_quantity env s (env.equity * w) q
                        · simp [hq, countQty]
  · intro env s w p hp hp0 hf hnf hval hqty
    unfold set_holdings place_notional_order place_quantity_order
    rw [hp]
    have h1 : ¬(p ≤ 0) := not_le.2 hp0
    have h2 : ¬(env.equity * w < 1) := not_lt.2 hval
    have h3 : p ≠ 0 := ne_of_gt hp0
    simp [h1, h2, h3, hf, hnf, hqty, countQty]
  · intro env s w rest h
    simp [runAdjust, h]

set_option maxRecDepth 2000 in
/-- C7 counterexample: in a two-symbol batch where both the notional
and the fallback quantity order for A are rejected, the loop aborts
with the exception and symbol B, although in to_adjust, never has an
order submitted. -/
theorem C7_counterexample :
    (execute_trades envOrderFailA [] [("A", 1/2), ("B", 1/2)]).1
      = [Ev.notional "A" 500, Ev.quantity "A" 5] ∧
    (execute_trades envOrderFailA [] [("A", 1/2), ("B", 1/2)]).2 = Except.error () ∧
    ("B", (1/2 : ℚ)) ∈ to_adjust [] (normalizeTarget [("A", 1/2), ("B", 1/2)]) ∧
    ((execute_trades envOrderFailA [] [("A", 1/2), ("B", 1/2)]).1.all
        (fun e => evSymbol e != "B")) = true := by
  refine ⟨by with_unfolding_all decide, by with_unfolding_all rfl,
    by with_unfolding_all decide, by with_unfolding_all decide⟩

/-- C7 witness: the batch-abort conjunct applied to the concrete
failing batch. -/
theorem C7_witness :
    (runAdjust envOrderFailA [("A", 1/2), ("B", 1/2)]).1
      = (set_holdings envOrderFailA "A" (1/2)).1 :=
  C7_fallback_once_batch_aborts.2.2 envOrderFailA "A" (1/2) [("B", 1/2)]
    (by with_unfolding_all rfl)

/-- The strategy state right after the LOW_VOL decision of the
concrete cycle used below. -/
def stAfterLow : StratState :=
  { in_recovery_mode := false, recovery_mode_start := none,
    last_rebalance_date := some fri20210129,
    last_regime := some "LOW_VOL_LEVERAGE", trade_count := 1 }

/-- envAllOk, except that the state save fails. -/
def envSaveFail : Env := { envAllOk with saveFails := true }

lemma calc_sig_low :
    calculate_signals (some (1/10)) fri20210129 initStrat =
      Except.ok ([("UPRO", 1)], "LOW_VOL_LEVERAGE", stAfterLow) := by
  with_unfolding_all rfl

lemma sched_monthly_true :
    should_rebalance_today Freq.monthly fri20210129 initStrat (some (1/10)) = true := by
  decide

set_option maxRecDepth 2000 in
lemma exec_trades_spy_upro :
    execute_trades envAllOk [("SPY", 1)] [("UPRO", 1)] =
      ([Ev.liquidate "SPY", Ev.notional "UPRO" 1000], Except.ok ()) := by
  with_unfolding_all rfl

set_option maxRecDepth 2000 in
lemma exec_trades_spy_upro_sf :
    execute_trades envSaveFail [("SPY", 1)] [("UPRO", 1)] =
      ([Ev.liquidate "SPY", Ev.notional "UPRO" 1000], Except.ok ()) := by
  with_unfolding_all rfl

lemma exec_cycle_low :
    execute envAllOk Freq.monthly true (some (1/10)) fri20210129 [("SPY", 1)] initStrat =
      ([Ev.save (mkRecord stAfterLow) true, Ev.liquidate "SPY", Ev.notional "UPRO" 1000],
        stAfterLow, true) := by
  unfold execute
  rw [sched_monthly_true, calc_sig_low]
  simp [exec_trades_spy_upro, show envAllOk.saveFails = false from rfl]

lemma exec_cycle_low_sf :
    execute envSaveFail Freq.monthly true (some (1/10)) fri20210129 [("SPY", 1)] initStrat =
      ([Ev.save (mkRecord stAfterLow) false, Ev.liquidate "SPY", Ev.notional "UPRO" 1000],
        stAfterLow, true) := by
  unfold execute
  rw [sched_monthly_true, calc_sig_low]
  simp [exec_trades_spy_upro_sf, show envSaveFail.saveFails = true from rfl]

lemma execute_trace_shape :
    ∀ (env : Env) (freq : Freq) (isInit : Bool) (vol : Option ℚ) (now : DateTime)
      (cur : List (String × ℚ)) (st : StratState),
      (execute env freq isInit vol now cur st).1 = [] ∨
      ∃ rec ok rest, (execute env freq isInit vol now cur st).1 = Ev.save rec ok :: rest := by
  intro env freq isInit vol now cur st
  unfold execute
  cases isInit with
  | false => exact Or.inl rfl
  | true =>
      cases hs : should_rebalance_today freq now st vol with
      | false => simp [hs]
      | true =>
          cases hc : calculate_signals vol now st with
          | error e => simp [hs, hc]
          | ok val =>
              obtain ⟨alloc, rg, st2⟩ := val
              by_cases he : alloc.isEmpty
              · exact Or.inr ⟨mkRecord st2, !env.saveFails, [], by simp [hs, hc, he]⟩
              · cases hr : (execute_trades env cur alloc).2 with
                | ok u =>
                    exact Or.inr ⟨mkRecord st2, !env.saveFails,
                      (execute_trades env cur alloc).1, by simp [hs, hc, he, hr]⟩
                | error u =>
                    exact Or.inr ⟨mkRecord st2, !env.saveFails,
                      (execute_trades env cur alloc).1, by simp [hs, hc, he, hr]⟩

/-- C1: in every execution cycle, any liquidation or order-submission
event in the trace is strictly preceded by the state-save event (the
updated ScheduleState record written at the end of calculate_signals);
no trade submission ever precedes the state update of its decision. -/
theorem C1_state_saved_before_any_trade :
    ∀ (env : Env) (freq : Freq) (isInit : Bool) (vol : Option ℚ) (now : DateTime)
      (cur : List (String × ℚ)) (st : StratState) (j : ℕ) (e : Ev),
      (execute env freq isInit vol now cur st).1[j]? = some e →
      isTradeEv e = true →
      ∃ i e2, i < j ∧
        (execute env freq isInit vol now cur st).1[i]? = some e2 ∧
        isSaveEv e2 = true := by
  intro env freq isInit vol now cur st j e hj ht
  rcases execute_trace_shape env freq isInit vol now cur st with hnil | ⟨rec, ok, rest, hcons⟩
  · rw [hnil] at hj
    simp at hj
  · cases j with
    | zero =>
        rw [hcons] at hj
        simp at hj
        rw [← hj] at ht
        simp [isTradeEv] at ht
    | succ n =>
        exact ⟨0, Ev.save rec ok, Nat.succ_pos n, by rw [hcons]; simp, rfl⟩

/-- C1 witness: in the concrete cycle the liquidation at index 1 is
preceded by the save event at index 0. -/
theorem C1_witness :
    ∃ i e2, i < 1 ∧
      (execute envAllOk Freq.monthly true (some (1/10)) fri20210129
          [("SPY", 1)] initStrat).1[i]? = some e2 ∧
      isSaveEv e2 = true :=
  C1_state_saved_before_any_trade envAllOk Freq.monthly true (some (1/10)) fri20210129
    [("SPY", 1)] initStrat 1 (Ev.liquidate "SPY") (by rw [exec_cycle_low]; rfl) rfl

set_option maxRecDepth 2000 in
/-- C10: with volatility unavailable the decision log line of
calculate_signals formats None with the .1% spec and raises before the
state update, so the NO_DATA_NEUTRAL cycle updates nothing and trades
nothing — the claim that every call (including the NO_DATA fallback)
increments trade_count and overwrites the state fields fails there,
while it does hold for every call with available volatility, and a
save failure leaves the in-memory updates and the cycle result
untouched. -/
theorem C10_nodata_decision_crashes :
    calculate_signals none fri20210129 initStrat = Except.error () ∧
    should_rebalance_today Freq.monthly fri20210129 initStrat none = true ∧
    execute envAllOk Freq.monthly true none fri20210129 [] initStrat
      = ([], initStrat, false) ∧
    calculate_signals (some (1/10)) fri20210129 initStrat =
      Except.ok ([("UPRO", 1)], "LOW_VOL_LEVERAGE", stAfterLow) ∧
    stAfterLow.trade_count = initStrat.trade_count + 1 ∧
    stAfterLow.last_rebalance_date = some fri20210129 ∧
    stAfterLow.last_regime = some "LOW_VOL_LEVERAGE" ∧
    (execute envSaveFail Freq.monthly true (some (1/10)) fri20210129
        [("SPY", 1)] initStrat).2 =
      (execute envAllOk Freq.monthly true (some (1/10)) fri20210129
        [("SPY", 1)] initStrat).2 := by
  refine ⟨rfl, by decide, by with_unfolding_all decide, calc_sig_low, rfl, rfl, rfl, ?_⟩
  rw [exec_cycle_low, exec_cycle_low_sf]
